import Mathlib

/-!
Shallow embedding of the thesis-workflow manager (`src/app.py`).

The SQLite tables are modelled as Lean lists of structures; rows appear in
insertion (rowid) order.  TEXT dates and timestamps are ISO-8601 strings and
SQLite's TEXT comparison is the lexicographic `String` order.  Queries of the
form `ORDER BY created_at DESC LIMIT 1` (which have no secondary sort key in
the source) are modelled with scan-order-stable semantics: among rows with the
maximal key, the one scanned first (lowest rowid, i.e. earliest in the list)
is returned.
-/

/-- Row of table `committee_member` (`id`, `name`, `email`). -/
structure CommitteeMember where
  id : Nat
  name : String
  email : String
deriving DecidableEq, Repr

/-- Row of table `decision_log`; `id` is the AUTOINCREMENT rowid recording
insertion order. -/
structure DecisionEntry where
  id : Nat
  thesis_id : Nat
  committee_member_id : Nat
  decision : String
  comment : Option String
  created_at : String
deriving DecidableEq, Repr

/-- Row of table `status_history` (the AUTOINCREMENT id is not modelled;
rows are kept in insertion order). -/
structure StatusHistoryEntry where
  thesis_id : Nat
  old_status : Option String
  new_status : String
  changed_at : String
deriving DecidableEq, Repr

/-- Row of table `milestone`. -/
structure Milestone where
  milestone_id : Nat
  thesis_id : Nat
  type : String
  due_date : String
  status : String
  notes : Option String
deriving DecidableEq, Repr

/-- Row of table `submission`. -/
structure Submission where
  submission_id : Nat
  thesis_id : Nat
  kind : String
  submitted_at : String
  comment : Option String
  attachment_path_or_url : Option String
deriving DecidableEq, Repr

/-- Row of table `thesis`. -/
structure Thesis where
  thesis_id : Nat
  title : String
  abstract : Option String
  student_id : Nat
  supervisor_id : Option Nat
  external_reviewer_id : Option Nat
  submission_deadline : Option String
  status : String
  created_at : String
  updated_at : String
deriving DecidableEq, Repr

/-- The database: one list per table, rows in insertion order.
`thesis_committee` rows are `(thesis_id, committee_member_id)` pairs. -/
structure DB where
  theses : List Thesis
  milestones : List Milestone
  submissions : List Submission
  status_history : List StatusHistoryEntry
  committee_member : List CommitteeMember
  thesis_committee : List (Nat × Nat)
  decision_log : List DecisionEntry
deriving DecidableEq, Repr

/-- SQLite TEXT comparison (`<`), as the lexicographic order on the
character sequence.  ISO-8601 dates and timestamps compare chronologically
under it.  (Core `String.lt` is extensionally the same order, but its
decision procedure does not kernel-reduce, so the underlying `List Char`
order is used throughout.) -/
def textLt (a b : String) : Prop := a.data < b.data

instance (a b : String) : Decidable (textLt a b) := by
  unfold textLt; infer_instance

/-- SQLite TEXT comparison (`<=`), used for `ORDER BY` of TEXT columns. -/
def textLe (a b : String) : Prop := a.data ≤ b.data

instance (a b : String) : Decidable (textLe a b) := by
  unfold textLe; infer_instance

/-- `THESIS_STATUSES` from `src/app.py`. -/
def THESIS_STATUSES : List String :=
  ["Draft", "Submitted", "UnderReview", "ExternallyReviewed",
   "RevisionRequested", "Approved", "FinalSubmitted", "Completed", "Late"]

/-- The `THESIS_TRANSITIONS` dict of `src/app.py`, as the total lookup
`THESIS_TRANSITIONS.get(s, [])` used at line 473 (absent key yields `[]`). -/
def THESIS_TRANSITIONS (s : String) : List String :=
  if s = "Draft" then ["Submitted"]
  else if s = "Submitted" then ["UnderReview", "ExternallyReviewed"]
  else if s = "UnderReview" then ["RevisionRequested", "Approved"]
  else if s = "ExternallyReviewed" then ["Approved"]
  else if s = "RevisionRequested" then ["Submitted"]
  else if s = "Approved" then ["FinalSubmitted"]
  else if s = "FinalSubmitted" then ["Completed"]
  else if s = "Completed" then []
  else if s = "Late" then []
  else []

/-- The `MILESTONE_TRANSITIONS` dict, as the total lookup
`MILESTONE_TRANSITIONS.get(s, [])` used at line 623. -/
def MILESTONE_TRANSITIONS (s : String) : List String :=
  if s = "Planned" then ["InProgress"]
  else if s = "InProgress" then ["Submitted"]
  else if s = "Submitted" then ["Accepted", "InProgress"]
  else if s = "Accepted" then []
  else []

/-- `NON_LATE_TERMINAL` from `src/app.py` (the status list of the
`status NOT IN (...)` clause of the sweep query). -/
def NON_LATE_TERMINAL : List String := ["Approved", "FinalSubmitted", "Completed", "Late"]

/-- `SELECT * FROM thesis WHERE thesis_id = ?` followed by `fetchone()`. -/
def findThesis (db : DB) (thesis_id : Nat) : Option Thesis :=
  db.theses.find? (fun t => t.thesis_id == thesis_id)

/-- `SELECT * FROM milestone WHERE milestone_id = ?` followed by `fetchone()`. -/
def findMilestone (db : DB) (milestone_id : Nat) : Option Milestone :=
  db.milestones.find? (fun m => m.milestone_id == milestone_id)

/-- Insert one member into a name-sorted list, keeping scan order among equal
names (stable). -/
def insertByName (cm : CommitteeMember) : List CommitteeMember → List CommitteeMember
  | [] => [cm]
  | x :: xs => if textLe cm.name x.name then cm :: x :: xs else x :: insertByName cm xs

/-- Stable sort of committee members by name, ascending (`ORDER BY cm.name`). -/
def sortByName : List CommitteeMember → List CommitteeMember
  | [] => []
  | x :: xs => insertByName x (sortByName xs)

/-- The member query of `get_committee_approval_status` (lines 327-331):
`SELECT cm.* FROM committee_member cm JOIN thesis_committee tc
 ON cm.id = tc.committee_member_id WHERE tc.thesis_id = ? ORDER BY cm.name`.
`(thesis_id, committee_member_id)` is the primary key of `thesis_committee`,
so each member matches at most one assignment row. -/
def committeeFor (db : DB) (thesis_id : Nat) : List CommitteeMember :=
  sortByName (db.committee_member.filter (fun cm =>
    db.thesis_committee.any (fun a => a.1 == thesis_id && a.2 == cm.id)))

/-- `WHERE thesis_id = ? AND committee_member_id = ?` over `decision_log`,
in scan (insertion) order. -/
def entriesFor (db : DB) (thesis_id member_id : Nat) : List DecisionEntry :=
  db.decision_log.filter (fun d =>
    d.thesis_id == thesis_id && d.committee_member_id == member_id)

/-- `ORDER BY created_at DESC LIMIT 1` over a scan-ordered row list: the first
row (in scan order) whose `created_at` is maximal.  The source query has no
secondary sort key, so equal timestamps are resolved by stable scan order. -/
def pickFirstMax : List DecisionEntry → Option DecisionEntry
  | [] => none
  | d :: ds =>
    match pickFirstMax ds with
    | none => some d
    | some b => if textLt d.created_at b.created_at then some b else some d

/-- The per-member latest-decision query of `get_committee_approval_status`
(lines 339-344). -/
def latestDecision (db : DB) (thesis_id member_id : Nat) : Option DecisionEntry :=
  pickFirstMax (entriesFor db thesis_id member_id)

/-- One element of the `member_decisions` list built at lines 345-348:
decision/comment/created_at are `none` when the member has not decided. -/
structure MemberDecision where
  id : Nat
  name : String
  email : String
  decision : Option String
  comment : Option String
  created_at : Option String
deriving DecidableEq, Repr

/-- The dict built for one member at lines 345-348. -/
def memberDecision (db : DB) (thesis_id : Nat) (m : CommitteeMember) : MemberDecision :=
  match latestDecision db thesis_id m.id with
  | some d => ⟨m.id, m.name, m.email, some d.decision, d.comment, some d.created_at⟩
  | none => ⟨m.id, m.name, m.email, none, none, none⟩

/-- `get_committee_approval_status` (lines 320-359).  The source loop sets
`all_decided = False` exactly when some member has no latest entry and
`has_reject = True` exactly when some member's latest entry's decision equals
"Reject"; both are folded here into `all`/`any` over the same member list. -/
def get_committee_approval_status (db : DB) (thesis_id : Nat) :
    Bool × Option String × List MemberDecision :=
  let members := committeeFor db thesis_id
  if members.isEmpty then (true, none, [])
  else
    let member_decisions := members.map (memberDecision db thesis_id)
    let all_decided := members.all (fun m => (latestDecision db thesis_id m.id).isSome)
    let has_reject := members.any (fun m =>
      match latestDecision db thesis_id m.id with
      | some d => d.decision == "Reject"
      | none => false)
    if !all_decided then
      (false, some "All committee decisions must be submitted before approval.", member_decisions)
    else if has_reject then
      (false, some "Approval blocked: one or more committee members selected Reject.", member_decisions)
    else
      (true, none, member_decisions)

/-- The `WHERE` clause of the sweep query of `enforce_deadlines`
(lines 214-219): deadline set, strictly below today in TEXT order, and status
outside the `NOT IN` list. -/
def isOverdue (today : String) (t : Thesis) : Bool :=
  match t.submission_deadline with
  | none => false
  | some d => decide (textLt d today) && !(NON_LATE_TERMINAL.contains t.status)

/-- The per-thesis `UPDATE` of the sweep (lines 223-224), applied to the rows
the sweep query selected. -/
def lateStep (today now : String) (t : Thesis) : Thesis :=
  if isOverdue today t then { t with status := "Late", updated_at := now } else t

/-- The per-thesis history `INSERT` of the sweep (lines 225-228): `old_status`
is the status the sweep query read, `new_status` is the literal `'Late'`. -/
def mkLateEntry (now : String) (t : Thesis) : StatusHistoryEntry :=
  ⟨t.thesis_id, some t.status, "Late", now⟩

/-- `enforce_deadlines` (lines 209-229): every overdue thesis is forced to
`Late` with a fresh update timestamp, and one history row is appended per
overdue thesis, in scan order. -/
def enforce_deadlines (db : DB) (today now : String) : DB :=
  { db with
    theses := db.theses.map (lateStep today now),
    status_history := db.status_history ++
      (db.theses.filter (fun t => isOverdue today t)).map (mkLateEntry now) }

/-- Outcome of a workflow request, named after the error taxonomy the routes
realise through their flash-and-redirect branches. -/
inductive TransitionOutcome where
  | notFound
  | illegalTransition
  | missingPrerequisite
  | approvalBlocked (reason : Option String)
  | success
deriving DecidableEq, Repr

/-- `thesis_transition` (lines 466-494): 404 when the thesis is missing, then
the registry check against `THESIS_TRANSITIONS.get(status, [])`, then the
external-reviewer prerequisite for target `ExternallyReviewed`, then the
approval gate for target `Approved`; on success one `UPDATE` of
status/updated_at and one `status_history` `INSERT`, committed together. -/
def thesis_transition (db : DB) (thesis_id : Nat) (new_status now : String) :
    DB × TransitionOutcome :=
  match findThesis db thesis_id with
  | none => (db, .notFound)
  | some t =>
    if !((THESIS_TRANSITIONS t.status).contains new_status) then
      (db, .illegalTransition)
    else if new_status == "ExternallyReviewed" && t.external_reviewer_id.isNone then
      (db, .missingPrerequisite)
    else if new_status == "Approved" && !(get_committee_approval_status db thesis_id).1 then
      (db, .approvalBlocked (get_committee_approval_status db thesis_id).2.1)
    else
      ({ db with
          theses := db.theses.map (fun u =>
            if u.thesis_id == thesis_id then { u with status := new_status, updated_at := now } else u),
          status_history := db.status_history ++ [⟨thesis_id, some t.status, new_status, now⟩] },
       .success)

/-- `milestone_transition` (lines 616-631): 404 when the milestone is missing,
registry check against `MILESTONE_TRANSITIONS.get(status, [])`, and on success
a single `UPDATE milestone SET status=?` — nothing else is written. -/
def milestone_transition (db : DB) (milestone_id : Nat) (new_status : String) :
    DB × TransitionOutcome :=
  match findMilestone db milestone_id with
  | none => (db, .notFound)
  | some ms =>
    if !((MILESTONE_TRANSITIONS ms.status).contains new_status) then
      (db, .illegalTransition)
    else
      ({ db with
          milestones := db.milestones.map (fun m =>
            if m.milestone_id == milestone_id then { m with status := new_status } else m) },
       .success)

/-- `thesis_delete` (lines 457-463): an unconditional
`DELETE FROM thesis WHERE thesis_id = ?` under `PRAGMA foreign_keys = ON`,
whose `ON DELETE CASCADE` clauses remove the matching rows of `milestone`,
`submission`, `status_history`, `thesis_committee` and `decision_log`; the
route has no 404 branch and always flashes success. -/
def thesis_delete (db : DB) (thesis_id : Nat) : DB × TransitionOutcome :=
  ({ theses := db.theses.filter (fun t => !(t.thesis_id == thesis_id)),
     milestones := db.milestones.filter (fun m => !(m.thesis_id == thesis_id)),
     submissions := db.submissions.filter (fun s => !(s.thesis_id == thesis_id)),
     status_history := db.status_history.filter (fun h => !(h.thesis_id == thesis_id)),
     committee_member := db.committee_member,
     thesis_committee := db.thesis_committee.filter (fun a => !(a.1 == thesis_id)),
     decision_log := db.decision_log.filter (fun d => !(d.thesis_id == thesis_id)) },
   .success)

/-- Referential integrity of the child tables the thesis cascade can touch,
as `PRAGMA foreign_keys = ON` guarantees it: every child row's `thesis_id`
references an existing thesis row. -/
def fkConsistent (db : DB) : Prop :=
  (∀ m ∈ db.milestones, ∃ t ∈ db.theses, t.thesis_id = m.thesis_id) ∧
  (∀ s ∈ db.submissions, ∃ t ∈ db.theses, t.thesis_id = s.thesis_id) ∧
  (∀ h ∈ db.status_history, ∃ t ∈ db.theses, t.thesis_id = h.thesis_id) ∧
  (∀ a ∈ db.thesis_committee, ∃ t ∈ db.theses, t.thesis_id = a.1) ∧
  (∀ d ∈ db.decision_log, ∃ t ∈ db.theses, t.thesis_id = d.thesis_id)

instance (db : DB) : Decidable (fkConsistent db) := by
  unfold fkConsistent; infer_instance

/-- History rows of one thesis, in insertion order. -/
def historyFor (db : DB) (thesis_id : Nat) : List StatusHistoryEntry :=
  db.status_history.filter (fun h => h.thesis_id == thesis_id)

/-! ## Theorems -/

/-- C1: For every thesis with a non-empty committee in which every member has
at least one decision-log entry and at least one member's most recent decision
is "Reject", `get_committee_approval_status` returns `can_approve = false`
with the Reject blocking reason (the code's exact message string, capitalised
sentence-style), even if every other member's latest decision is Approve:
reject is an absolute veto, not outvoted by majority. -/
theorem reject_is_absolute_veto (db : DB) (tid : Nat)
    (hne : committeeFor db tid ≠ [])
    (hall : ∀ m ∈ committeeFor db tid, (latestDecision db tid m.id).isSome = true)
    (hrej : ∃ m ∈ committeeFor db tid,
      (latestDecision db tid m.id).map DecisionEntry.decision = some "Reject") :
    (get_committee_approval_status db tid).1 = false ∧
    (get_committee_approval_status db tid).2.1 =
      some "Approval blocked: one or more committee members selected Reject." := by
  obtain ⟨m, hm, hmr⟩ := hrej
  have hempty : (committeeFor db tid).isEmpty = false := by
    cases h : committeeFor db tid with
    | nil => exact absurd h hne
    | cons a l => rfl
  have hdecided : (committeeFor db tid).all
      (fun m => (latestDecision db tid m.id).isSome) = true :=
    List.all_eq_true.mpr hall
  have hreject : (committeeFor db tid).any (fun m =>
      match latestDecision db tid m.id with
      | some d => d.decision == "Reject"
      | none => false) = true := by
    refine List.any_eq_true.mpr ⟨m, hm, ?_⟩
    obtain ⟨d, hd, hdec⟩ := Option.map_eq_some'.mp hmr
    rw [hd]
    simpa using hdec
  simp [get_committee_approval_status, hempty, hdecided, hreject]

/-- C3: For every thesis with a non-empty committee in which at least one
member has no decision-log entry, `get_committee_approval_status` returns
`can_approve = false` with the undecided blocking reason (the code's exact
message string), with every undecided member shown in the per-member list
with `none` decision/comment/timestamp; this branch is tested before the
Reject branch, so it takes priority even when some other member's latest
decision is "Reject". -/
theorem undecided_blocks_approval (db : DB) (tid : Nat)
    (hund : ∃ m ∈ committeeFor db tid, latestDecision db tid m.id = none) :
    (get_committee_approval_status db tid).1 = false ∧
    (get_committee_approval_status db tid).2.1 =
      some "All committee decisions must be submitted before approval." ∧
    ∀ m ∈ committeeFor db tid, latestDecision db tid m.id = none →
      (⟨m.id, m.name, m.email, none, none, none⟩ : MemberDecision) ∈
        (get_committee_approval_status db tid).2.2 := by
  obtain ⟨m0, hm0, h0⟩ := hund
  have hempty : (committeeFor db tid).isEmpty = false := by
    cases h : committeeFor db tid with
    | nil => rw [h] at hm0; cases hm0
    | cons a l => rfl
  have hnotall : (committeeFor db tid).all
      (fun m => (latestDecision db tid m.id).isSome) = false := by
    cases h : (committeeFor db tid).all (fun m => (latestDecision db tid m.id).isSome) with
    | false => rfl
    | true =>
      have := List.all_eq_true.mp h m0 hm0
      rw [h0] at this
      cases this
  refine ⟨?_, ?_, ?_⟩
  · simp [get_committee_approval_status, hempty, hnotall]
  · simp [get_committee_approval_status, hempty, hnotall]
  · intro m hm hmnone
    have hmem : memberDecision db tid m ∈
        (committeeFor db tid).map (memberDecision db tid) :=
      List.mem_map_of_mem _ hm
    have hval : memberDecision db tid m =
        (⟨m.id, m.name, m.email, none, none, none⟩ : MemberDecision) := by
      simp [memberDecision, hmnone]
    rw [hval] at hmem
    simpa [get_committee_approval_status, hempty, hnotall] using hmem

/-- C4: `get_committee_approval_status` returns `can_approve = true` with no
blocking reason whenever the thesis's assigned committee is empty, and also
whenever every member has a latest decision and no member's latest decision is
"Reject" — a latest decision of "Minor Revision" is non-blocking, the same as
"Approve". -/
theorem approval_permitted (db : DB) (tid : Nat) :
    (committeeFor db tid = [] → get_committee_approval_status db tid = (true, none, [])) ∧
    ((∀ m ∈ committeeFor db tid, (latestDecision db tid m.id).isSome = true) →
     (∀ m ∈ committeeFor db tid,
        (latestDecision db tid m.id).map DecisionEntry.decision ≠ some "Reject") →
      (get_committee_approval_status db tid).1 = true ∧
      (get_committee_approval_status db tid).2.1 = none) := by
  constructor
  · intro h
    simp [get_committee_approval_status, h]
  · intro hall hnorej
    cases hcm : (committeeFor db tid).isEmpty with
    | true =>
      simp [get_committee_approval_status, hcm]
    | false =>
      have hdecided : (committeeFor db tid).all
          (fun m => (latestDecision db tid m.id).isSome) = true := by
        rw [hcm] at *
        exact List.all_eq_true.mpr hall
      have hnoreject : (committeeFor db tid).any (fun m =>
          match latestDecision db tid m.id with
          | some d => d.decision == "Reject"
          | none => false) = false := by
        cases h : (committeeFor db tid).any (fun m =>
            match latestDecision db tid m.id with
            | some d => d.decision == "Reject"
            | none => false) with
        | false => rfl
        | true =>
          obtain ⟨m, hm, hmr⟩ := List.any_eq_true.mp h
          cases hd : latestDecision db tid m.id with
          | none => rw [hd] at hmr; cases hmr
          | some d =>
            rw [hd] at hmr
            have : d.decision = "Reject" := by simpa using hmr
            exact absurd (by rw [hd]; simp [this]) (hnorej m hm)
      simp [get_committee_approval_status, hcm, hdecided, hnoreject]

/-- Concrete state for the veto witness: a two-member committee with one
Approve and one Reject, both decided. -/
def dbW1 : DB :=
  { theses := [⟨1, "T1", none, 1, none, none, none, "UnderReview", "2026-01-01T00:00:00", "2026-01-01T00:00:00"⟩],
    milestones := [], submissions := [],
    status_history := [⟨1, none, "Draft", "2026-01-01T00:00:00"⟩],
    committee_member := [⟨1, "Alice", "alice@u.edu"⟩, ⟨2, "Bob", "bob@u.edu"⟩],
    thesis_committee := [(1, 1), (1, 2)],
    decision_log := [⟨1, 1, 1, "Approve", none, "2026-01-02T00:00:00"⟩,
                     ⟨2, 1, 2, "Reject", some "weak evaluation", "2026-01-03T00:00:00"⟩] }

theorem reject_is_absolute_veto_witness :
    (get_committee_approval_status dbW1 1).1 = false ∧
    (get_committee_approval_status dbW1 1).2.1 =
      some "Approval blocked: one or more committee members selected Reject." :=
  reject_is_absolute_veto dbW1 1 (by decide) (by decide) (by decide)

/-- Concrete state for the undecided witness: Alice approved, Bob has no
entry, Carol rejected — the undecided reason still wins. -/
def dbW3 : DB :=
  { theses := [⟨1, "T1", none, 1, none, none, none, "UnderReview", "2026-01-01T00:00:00", "2026-01-01T00:00:00"⟩],
    milestones := [], submissions := [],
    status_history := [⟨1, none, "Draft", "2026-01-01T00:00:00"⟩],
    committee_member := [⟨1, "Alice", "alice@u.edu"⟩, ⟨2, "Bob", "bob@u.edu"⟩, ⟨3, "Carol", "carol@u.edu"⟩],
    thesis_committee := [(1, 1), (1, 2), (1, 3)],
    decision_log := [⟨1, 1, 1, "Approve", none, "2026-01-02T00:00:00"⟩,
                     ⟨2, 1, 3, "Reject", none, "2026-01-03T00:00:00"⟩] }

theorem undecided_blocks_approval_witness :
    (get_committee_approval_status dbW3 1).1 = false ∧
    (get_committee_approval_status dbW3 1).2.1 =
      some "All committee decisions must be submitted before approval." ∧
    ∀ m ∈ committeeFor dbW3 1, latestDecision dbW3 1 m.id = none →
      (⟨m.id, m.name, m.email, none, none, none⟩ : MemberDecision) ∈
        (get_committee_approval_status dbW3 1).2.2 :=
  undecided_blocks_approval dbW3 1 (by decide)

/-- Concrete state for the permitted witness: thesis 1 has Approve plus
Minor Revision (all decided, no Reject), thesis 2 has no committee. -/
def dbW4 : DB :=
  { theses := [⟨1, "T1", none, 1, none, none, none, "UnderReview", "2026-01-01T00:00:00", "2026-01-01T00:00:00"⟩,
               ⟨2, "T2", none, 2, none, none, none, "UnderReview", "2026-01-01T00:00:00", "2026-01-01T00:00:00"⟩],
    milestones := [], submissions := [],
    status_history := [⟨1, none, "Draft", "2026-01-01T00:00:00"⟩, ⟨2, none, "Draft", "2026-01-01T00:00:00"⟩],
    committee_member := [⟨1, "Alice", "alice@u.edu"⟩, ⟨2, "Bob", "bob@u.edu"⟩],
    thesis_committee := [(1, 1), (1, 2)],
    decision_log := [⟨1, 1, 1, "Approve", none, "2026-01-02T00:00:00"⟩,
                     ⟨2, 1, 2, "Minor Revision", some "minor wording fixes", "2026-01-03T00:00:00"⟩] }

theorem approval_permitted_witness :
    get_committee_approval_status dbW4 2 = (true, none, []) ∧
    ((get_committee_approval_status dbW4 1).1 = true ∧
     (get_committee_approval_status dbW4 1).2.1 = none) :=
  ⟨(approval_permitted dbW4 2).1 (by decide),
   (approval_permitted dbW4 1).2 (by decide) (by decide)⟩

lemma textLt_irrefl (a : String) : ¬ textLt a a := lt_irrefl a.data

lemma textLt_asymm {a b : String} (h : textLt a b) : ¬ textLt b a := lt_asymm h

lemma textLt_of_lt_of_not_lt {a b e : String} (h1 : textLt a e) (h2 : ¬ textLt b e) :
    textLt a b :=
  lt_of_lt_of_le h1 (not_lt.mp h2)

lemma pickFirstMax_eq_none {l : List DecisionEntry} :
    pickFirstMax l = none ↔ l = [] := by
  cases l with
  | nil => simp [pickFirstMax]
  | cons a l =>
    simp only [pickFirstMax]
    constructor
    · intro hc
      exfalso
      cases h : pickFirstMax l with
      | none => rw [h] at hc; cases hc
      | some b =>
        rw [h] at hc
        change (if textLt a.created_at b.created_at then some b else some a) = none at hc
        by_cases hab : textLt a.created_at b.created_at
        · rw [if_pos hab] at hc; cases hc
        · rw [if_neg hab] at hc; cases hc
    · intro hc; cases hc

/-- Characterisation of the modelled `ORDER BY created_at DESC LIMIT 1`
query: the selected row is in the scanned set, no scanned row has a strictly
later timestamp, and among the rows that are not strictly earlier than the
selected one (the timestamp maxima) the selected row is the first in scan
order. -/
lemma pickFirstMax_spec (l : List DecisionEntry) (d : DecisionEntry)
    (h : pickFirstMax l = some d) :
    d ∈ l ∧ (∀ e ∈ l, ¬ textLt d.created_at e.created_at) ∧
    (l.filter (fun e => !decide (textLt e.created_at d.created_at))).head? = some d := by
  induction l generalizing d with
  | nil => cases h
  | cons a l ih =>
    rw [pickFirstMax] at h
    cases hl : pickFirstMax l with
    | none =>
      rw [hl] at h
      injection h with h
      subst h
      have hnil : l = [] := pickFirstMax_eq_none.mp hl
      subst hnil
      refine ⟨List.mem_singleton.mpr rfl, ?_, ?_⟩
      · intro e he
        rw [List.mem_singleton] at he
        subst he
        exact textLt_irrefl _
      · rw [List.filter_cons_of_pos (by simp [textLt_irrefl])]
        rfl
    | some b =>
      rw [hl] at h
      change (if textLt a.created_at b.created_at then some b else some a) = some d at h
      obtain ⟨hbmem, hbmax, hbhead⟩ := ih b hl
      by_cases hab : textLt a.created_at b.created_at
      · rw [if_pos hab] at h
        injection h with h
        subst h
        refine ⟨List.mem_cons_of_mem _ hbmem, ?_, ?_⟩
        · intro e he
          rcases List.mem_cons.mp he with rfl | hel
          · exact textLt_asymm hab
          · exact hbmax e hel
        · rw [List.filter_cons_of_neg (by simp [hab])]
          exact hbhead
      · rw [if_neg hab] at h
        injection h with h
        subst h
        refine ⟨List.mem_cons_self _ _, ?_, ?_⟩
        · intro e he
          rcases List.mem_cons.mp he with rfl | hel
          · exact textLt_irrefl _
          · intro hae
            exact hab (textLt_of_lt_of_not_lt hae (hbmax e hel))
        · rw [List.filter_cons_of_pos (by simp [textLt_irrefl])]
          rfl

/-- C6 amended: the latest-decision query of `get_committee_approval_status`
orders by `created_at` alone (no entry-id tiebreak appears in the source), so
under scan-order-stable sort semantics it selects, among a member's
decision-log entries of maximal timestamp, the one scanned FIRST (the
earliest-inserted, lowest-id entry) — not the entry inserted last.  The
selection is a timestamp maximum and is first in scan order among the tied
maxima. -/
theorem latest_decision_first_among_ties (db : DB) (tid mid : Nat) (d : DecisionEntry)
    (h : latestDecision db tid mid = some d) :
    d ∈ entriesFor db tid mid ∧
    (∀ e ∈ entriesFor db tid mid, ¬ textLt d.created_at e.created_at) ∧
    ((entriesFor db tid mid).filter
      (fun e => !decide (textLt e.created_at d.created_at))).head? = some d :=
  pickFirstMax_spec _ _ h

/-- Concrete state refuting C6 as stated: one committee member with two
decision-log entries carrying the same whole-second timestamp, `Approve`
inserted first (id 1) and `Reject` inserted last (id 2). -/
def dbC6 : DB :=
  { theses := [⟨1, "T1", none, 1, none, none, none, "UnderReview", "2026-01-01T00:00:00", "2026-01-01T00:00:00"⟩],
    milestones := [], submissions := [],
    status_history := [⟨1, none, "Draft", "2026-01-01T00:00:00"⟩],
    committee_member := [⟨1, "Helen", "helen@u.edu"⟩],
    thesis_committee := [(1, 1)],
    decision_log := [⟨1, 1, 1, "Approve", none, "2026-01-05T12:00:00"⟩,
                     ⟨2, 1, 1, "Reject", none, "2026-01-05T12:00:00"⟩] }

/-- C6 fails on the code: with two equal-timestamp entries, the selected
most-recent decision is the FIRST-inserted entry (id 1, `Approve`), not the
last-inserted one (id 2, `Reject`) as the claim states, and the gate
consequently permits approval rather than vetoing it. -/
theorem latest_decision_tie_counterexample :
    Option.map DecisionEntry.id (latestDecision dbC6 1 1) = some 1 ∧
    Option.map DecisionEntry.id (latestDecision dbC6 1 1) ≠ some 2 ∧
    Option.map DecisionEntry.decision (latestDecision dbC6 1 1) = some "Approve" ∧
    (get_committee_approval_status dbC6 1).1 = true := by
  decide

/-- The first-inserted tied entry of `dbC6`. -/
def tieEntry : DecisionEntry := ⟨1, 1, 1, "Approve", none, "2026-01-05T12:00:00"⟩

theorem latest_decision_first_among_ties_witness :
    tieEntry ∈ entriesFor dbC6 1 1 ∧
    (∀ e ∈ entriesFor dbC6 1 1, ¬ textLt tieEntry.created_at e.created_at) ∧
    ((entriesFor dbC6 1 1).filter
      (fun e => !decide (textLt e.created_at tieEntry.created_at))).head? = some tieEntry :=
  latest_decision_first_among_ties dbC6 1 1 tieEntry (by decide)

lemma lateStep_not_overdue (today now : String) (t : Thesis) :
    isOverdue today (lateStep today now t) = false := by
  by_cases h : isOverdue today t
  · rw [lateStep, if_pos h]
    unfold isOverdue
    cases hd : t.submission_deadline with
    | none => rfl
    | some d => simp [NON_LATE_TERMINAL]
  · rw [lateStep, if_neg h]
    exact Bool.eq_false_iff.mpr h

lemma lateStep_idem (today now now2 : String) (t : Thesis) :
    lateStep today now2 (lateStep today now t) = lateStep today now t := by
  conv_lhs => rw [lateStep]
  simp [lateStep_not_overdue]

lemma lateStep_of_overdue (today now : String) (t : Thesis) (h : isOverdue today t = true) :
    lateStep today now t = { t with status := "Late", updated_at := now } := by
  rw [lateStep, if_pos h]

lemma lateStep_of_not_overdue (today now : String) (t : Thesis)
    (h : isOverdue today t = false) :
    lateStep today now t = t := by
  rw [lateStep, if_neg (by simp [h])]

/-- No sweep-generated history row carries the id of a thesis that is never
overdue under that id. -/
lemma sweep_delta_filter_nil (l : List Thesis) (today now : String) (tid : Nat)
    (h : ∀ u ∈ l, u.thesis_id = tid → isOverdue today u = false) :
    ((l.filter (fun u => isOverdue today u)).map (mkLateEntry now)).filter
      (fun e => e.thesis_id == tid) = [] := by
  induction l with
  | nil => rfl
  | cons a l ih =>
    have hl : ∀ u ∈ l, u.thesis_id = tid → isOverdue today u = false :=
      fun u hu => h u (List.mem_cons_of_mem _ hu)
    by_cases ha : isOverdue today a
    · rw [List.filter_cons_of_pos ha, List.map_cons,
        List.filter_cons_of_neg]
      · exact ih hl
      · have hne : a.thesis_id ≠ tid := by
          intro hc
          rw [h a (List.mem_cons_self _ _) hc] at ha
          cases ha
        simpa [mkLateEntry] using hne
    · rw [List.filter_cons_of_neg (by simp [ha])]
      exact ih hl

/-- The sweep appends exactly one history row for an overdue thesis whose id
is unique in the table. -/
lemma sweep_delta_filter_single (l : List Thesis) (today now : String) (t : Thesis)
    (hn : (l.map Thesis.thesis_id).Nodup) (ht : t ∈ l) (ho : isOverdue today t = true) :
    ((l.filter (fun u => isOverdue today u)).map (mkLateEntry now)).filter
      (fun e => e.thesis_id == t.thesis_id) = [mkLateEntry now t] := by
  induction l with
  | nil => cases ht
  | cons a l ih =>
    rw [List.map_cons, List.nodup_cons] at hn
    obtain ⟨hna, hnl⟩ := hn
    rcases List.mem_cons.mp ht with rfl | htl
    · rw [List.filter_cons_of_pos ho, List.map_cons,
        List.filter_cons_of_pos (by simp [mkLateEntry])]
      have : ((l.filter (fun u => isOverdue today u)).map (mkLateEntry now)).filter
          (fun e => e.thesis_id == t.thesis_id) = [] := by
        refine sweep_delta_filter_nil l today now t.thesis_id (fun u hu hid => ?_)
        exact absurd (hid ▸ List.mem_map_of_mem Thesis.thesis_id hu) hna
      rw [this]
    · have hne : a.thesis_id ≠ t.thesis_id := by
        intro hc
        exact hna (hc ▸ List.mem_map_of_mem Thesis.thesis_id htl)
      by_cases ha : isOverdue today a
      · rw [List.filter_cons_of_pos ha, List.map_cons,
          List.filter_cons_of_neg (by simpa [mkLateEntry] using hne)]
        exact ih hnl htl
      · rw [List.filter_cons_of_neg (by simp [ha])]
        exact ih hnl htl

/-- C2: the deadline sweep forces to "Late" exactly the theses whose deadline
is set and strictly earlier than today and whose status is outside
{Approved, FinalSubmitted, Completed, Late} (`isOverdue`); each such thesis
gains exactly one history row whose `old_status` is the prior status and
whose `new_status` is "Late"; theses that are not overdue — in particular any
thesis whose status is "Completed" or already "Late" — keep their row and
their history unchanged; and re-running the sweep on the swept state changes
nothing. -/
theorem enforce_deadlines_spec (db : DB) (today now now2 : String)
    (hn : (db.theses.map Thesis.thesis_id).Nodup) :
    (∀ t ∈ db.theses, isOverdue today t = true →
      { t with status := "Late", updated_at := now } ∈ (enforce_deadlines db today now).theses ∧
      historyFor (enforce_deadlines db today now) t.thesis_id =
        historyFor db t.thesis_id ++ [mkLateEntry now t]) ∧
    (∀ t ∈ db.theses, isOverdue today t = false →
      t ∈ (enforce_deadlines db today now).theses ∧
      historyFor (enforce_deadlines db today now) t.thesis_id = historyFor db t.thesis_id) ∧
    (∀ t ∈ db.theses, t.status ∈ NON_LATE_TERMINAL → isOverdue today t = false) ∧
    enforce_deadlines (enforce_deadlines db today now) today now2 =
      enforce_deadlines db today now := by
  refine ⟨?_, ?_, ?_, ?_⟩
  · intro t ht ho
    constructor
    · rw [enforce_deadlines]
      have := List.mem_map_of_mem (lateStep today now) ht
      rwa [lateStep_of_overdue today now t ho] at this
    · rw [enforce_deadlines, historyFor, historyFor]
      simp only [List.filter_append]
      rw [sweep_delta_filter_single db.theses today now t hn ht ho]
  · intro t ht ho
    constructor
    · rw [enforce_deadlines]
      have := List.mem_map_of_mem (lateStep today now) ht
      rwa [lateStep_of_not_overdue today now t ho] at this
    · rw [enforce_deadlines, historyFor, historyFor]
      simp only [List.filter_append]
      rw [sweep_delta_filter_nil db.theses today now t.thesis_id, List.append_nil]
      intro u hu hid
      have : u = t := List.inj_on_of_nodup_map hn hu ht hid
      rw [this]
      exact ho
  · intro t ht hs
    unfold isOverdue
    cases hd : t.submission_deadline with
    | none => rfl
    | some d =>
      have : NON_LATE_TERMINAL.contains t.status = true := List.elem_eq_true_of_mem hs
      rw [this]
      simp
  · rw [enforce_deadlines, enforce_deadlines]
    have htheses : (db.theses.map (lateStep today now)).map (lateStep today now2) =
        db.theses.map (lateStep today now) := by
      rw [List.map_map]
      exact List.map_congr_left (fun t ht => lateStep_idem today now now2 t)
    have hdelta : (db.theses.map (lateStep today now)).filter
        (fun t => isOverdue today t) = [] := by
      rw [List.filter_eq_nil_iff]
      intro t ht
      obtain ⟨u, hu, rfl⟩ := List.mem_map.mp ht
      simp [lateStep_not_overdue]
    simp [htheses, hdelta]

/-- Concrete state for the sweep witness: thesis 1 is overdue and
"Submitted", thesis 2 has a past deadline but is "Completed". -/
def tSub : Thesis :=
  ⟨1, "T1", none, 1, none, none, some "2026-01-31", "Submitted",
   "2026-01-01T00:00:00", "2026-01-01T00:00:00"⟩

def tComp : Thesis :=
  ⟨2, "T2", none, 2, none, none, some "2026-01-15", "Completed",
   "2026-01-01T00:00:00", "2026-01-01T00:00:00"⟩

def dbW2 : DB :=
  { theses := [tSub, tComp],
    milestones := [], submissions := [],
    status_history := [⟨1, none, "Draft", "2026-01-01T00:00:00"⟩,
                       ⟨2, none, "Draft", "2026-01-01T00:00:00"⟩],
    committee_member := [], thesis_committee := [], decision_log := [] }

theorem enforce_deadlines_spec_witness :
    ({ tSub with status := "Late", updated_at := "2026-02-01T08:00:00" } ∈
        (enforce_deadlines dbW2 "2026-02-01" "2026-02-01T08:00:00").theses ∧
      historyFor (enforce_deadlines dbW2 "2026-02-01" "2026-02-01T08:00:00") tSub.thesis_id =
        historyFor dbW2 tSub.thesis_id ++ [mkLateEntry "2026-02-01T08:00:00" tSub]) ∧
    (tComp ∈ (enforce_deadlines dbW2 "2026-02-01" "2026-02-01T08:00:00").theses ∧
      historyFor (enforce_deadlines dbW2 "2026-02-01" "2026-02-01T08:00:00") tComp.thesis_id =
        historyFor dbW2 tComp.thesis_id) ∧
    enforce_deadlines (enforce_deadlines dbW2 "2026-02-01" "2026-02-01T08:00:00")
        "2026-02-01" "2026-02-02T08:00:00" =
      enforce_deadlines dbW2 "2026-02-01" "2026-02-01T08:00:00" := by
  have h := enforce_deadlines_spec dbW2 "2026-02-01" "2026-02-01T08:00:00"
    "2026-02-02T08:00:00" (by decide)
  exact ⟨h.1 tSub (by decide) (by decide), h.2.1 tComp (by decide) (by decide), h.2.2.2⟩

lemma externallyReviewed_contains (s : String) :
    (THESIS_TRANSITIONS s).contains "ExternallyReviewed" = (s == "Submitted") := by
  unfold THESIS_TRANSITIONS
  split_ifs with h1 h2 h3 h4 h5 h6 h7 h8 h9
  · subst h1; rfl
  · subst h2; rfl
  · subst h3; rfl
  · subst h4; rfl
  · subst h5; rfl
  · subst h6; rfl
  · subst h7; rfl
  · subst h8; rfl
  · subst h9; rfl
  · simpa using (beq_eq_false_iff_ne.mpr h2).symm

lemma late_not_contains (s : String) :
    (THESIS_TRANSITIONS s).contains "Late" = false := by
  unfold THESIS_TRANSITIONS
  split_ifs <;> rfl

/-- C5 amended: a transition request with target "ExternallyReviewed" on a
thesis with no external reviewer never succeeds and never changes the state;
the failure kind is `missingPrerequisite` when the source state is
"Submitted" (the only state whose registry edge set contains
"ExternallyReviewed"), and `illegalTransition` from every other source state,
because the route checks the registry before the reviewer prerequisite. -/
theorem externally_reviewed_needs_reviewer (db : DB) (tid : Nat) (now : String) (t : Thesis)
    (hf : findThesis db tid = some t) (hr : t.external_reviewer_id = none) :
    (thesis_transition db tid "ExternallyReviewed" now).2 ≠ TransitionOutcome.success ∧
    (thesis_transition db tid "ExternallyReviewed" now).1 = db ∧
    (t.status = "Submitted" →
      (thesis_transition db tid "ExternallyReviewed" now).2 =
        TransitionOutcome.missingPrerequisite) ∧
    (t.status ≠ "Submitted" →
      (thesis_transition db tid "ExternallyReviewed" now).2 =
        TransitionOutcome.illegalTransition) := by
  by_cases hs : t.status = "Submitted"
  · have hm : "ExternallyReviewed" ∈ THESIS_TRANSITIONS "Submitted" := by decide
    simp [thesis_transition, hf, hr, hs, hm]
  · have hc : (THESIS_TRANSITIONS t.status).contains "ExternallyReviewed" = false := by
      rw [externallyReviewed_contains]
      exact beq_eq_false_iff_ne.mpr hs
    have hm : "ExternallyReviewed" ∉ THESIS_TRANSITIONS t.status := by simpa using hc
    simp [thesis_transition, hf, hm, hs]

/-- Concrete state refuting C5 as stated: thesis 1 is in "Draft" with no
external reviewer, thesis 2 is in "Submitted" with no external reviewer. -/
def dbC5 : DB :=
  { theses := [⟨1, "T1", none, 1, none, none, none, "Draft",
                "2026-01-01T00:00:00", "2026-01-01T00:00:00"⟩,
               ⟨2, "T2", none, 2, none, none, none, "Submitted",
                "2026-01-01T00:00:00", "2026-01-01T00:00:00"⟩],
    milestones := [], submissions := [],
    status_history := [⟨1, none, "Draft", "2026-01-01T00:00:00"⟩,
                       ⟨2, none, "Draft", "2026-01-01T00:00:00"⟩],
    committee_member := [], thesis_committee := [], decision_log := [] }

/-- C5 fails on the code: from source state "Draft" (no external reviewer
assigned) the request with target "ExternallyReviewed" fails with
`illegalTransition`, not `missingPrerequisite`, because the registry check
runs first. -/
theorem externally_reviewed_counterexample :
    (thesis_transition dbC5 1 "ExternallyReviewed" "2026-01-02T00:00:00").2 =
      TransitionOutcome.illegalTransition ∧
    TransitionOutcome.illegalTransition ≠ TransitionOutcome.missingPrerequisite := by
  decide

theorem externally_reviewed_needs_reviewer_witness :
    (thesis_transition dbC5 2 "ExternallyReviewed" "2026-01-02T00:00:00").2 ≠
      TransitionOutcome.success ∧
    (thesis_transition dbC5 2 "ExternallyReviewed" "2026-01-02T00:00:00").1 = dbC5 ∧
    (thesis_transition dbC5 2 "ExternallyReviewed" "2026-01-02T00:00:00").2 =
      TransitionOutcome.missingPrerequisite := by
  have h := externally_reviewed_needs_reviewer dbC5 2 "2026-01-02T00:00:00"
    ⟨2, "T2", none, 2, none, none, none, "Submitted",
     "2026-01-01T00:00:00", "2026-01-01T00:00:00"⟩ (by decide) (by decide)
  exact ⟨h.1, h.2.1, h.2.2.1 rfl⟩

/-- C7: every successful `thesis_transition` appends exactly one
`status_history` row, whose `old_status` is the pre-transition status and
whose `new_status` is the requested target; the matching thesis row gets the
new status and update timestamp while every other row and table is untouched;
and when the request does not succeed nothing at all is written — the status
update and the history append happen together or not at all. -/
theorem thesis_transition_success_spec (db : DB) (tid : Nat) (target now : String) :
    (∀ t, findThesis db tid = some t →
      (thesis_transition db tid target now).2 = TransitionOutcome.success →
      (thesis_transition db tid target now).1.status_history =
        db.status_history ++ [⟨tid, some t.status, target, now⟩] ∧
      (∀ u ∈ db.theses, u.thesis_id = tid →
        { u with status := target, updated_at := now } ∈
          (thesis_transition db tid target now).1.theses) ∧
      (∀ u ∈ db.theses, u.thesis_id ≠ tid →
        u ∈ (thesis_transition db tid target now).1.theses) ∧
      (thesis_transition db tid target now).1.milestones = db.milestones ∧
      (thesis_transition db tid target now).1.submissions = db.submissions ∧
      (thesis_transition db tid target now).1.committee_member = db.committee_member ∧
      (thesis_transition db tid target now).1.thesis_committee = db.thesis_committee ∧
      (thesis_transition db tid target now).1.decision_log = db.decision_log) ∧
    ((thesis_transition db tid target now).2 ≠ TransitionOutcome.success →
      (thesis_transition db tid target now).1 = db) := by
  cases hft : findThesis db tid with
  | none =>
    constructor
    · intro t ht
      cases ht
    · intro _
      simp [thesis_transition, hft]
  | some t0 =>
    by_cases c1 : target ∈ THESIS_TRANSITIONS t0.status
    · by_cases c2 : target = "ExternallyReviewed" ∧ t0.external_reviewer_id = none
      · obtain ⟨rfl, hrev⟩ := c2
        constructor
        · intro t ht hs
          injection ht with ht
          subst ht
          rw [show (thesis_transition db tid "ExternallyReviewed" now).2 =
            TransitionOutcome.missingPrerequisite by
              simp [thesis_transition, hft, c1, hrev]] at hs
          cases hs
        · intro _
          simp [thesis_transition, hft, c1, hrev]
      · by_cases c3 : target = "Approved" ∧ (get_committee_approval_status db tid).1 = false
        · obtain ⟨rfl, hgate⟩ := c3
          constructor
          · intro t ht hs
            injection ht with ht
            subst ht
            rw [show (thesis_transition db tid "Approved" now).2 =
              TransitionOutcome.approvalBlocked (get_committee_approval_status db tid).2.1 by
                simp [thesis_transition, hft, c1, hgate]] at hs
            cases hs
          · intro _
            simp [thesis_transition, hft, c1, hgate]
        · constructor
          · intro t ht _
            injection ht with ht
            subst ht
            refine ⟨?_, ?_, ?_, ?_, ?_, ?_, ?_, ?_⟩
            · simp [thesis_transition, hft, c1, c2, c3]
            · intro u hu hid
              have hmem : { u with status := target, updated_at := now } ∈
                  db.theses.map (fun v : Thesis =>
                    if v.thesis_id = tid then { v with status := target, updated_at := now }
                    else v) :=
                List.mem_map.mpr ⟨u, hu, by simp [hid]⟩
              simpa [thesis_transition, hft, c1, c2, c3] using hmem
            · intro u hu hid
              have hmem : u ∈
                  db.theses.map (fun v : Thesis =>
                    if v.thesis_id = tid then { v with status := target, updated_at := now }
                    else v) :=
                List.mem_map.mpr ⟨u, hu, by simp [hid]⟩
              simpa [thesis_transition, hft, c1, c2, c3] using hmem
            · simp [thesis_transition, hft, c1, c2, c3]
            · simp [thesis_transition, hft, c1, c2, c3]
            · simp [thesis_transition, hft, c1, c2, c3]
            · simp [thesis_transition, hft, c1, c2, c3]
            · simp [thesis_transition, hft, c1, c2, c3]
          · intro hns
            exact absurd (by simp [thesis_transition, hft, c1, c2, c3]) hns
    · constructor
      · intro t ht hs
        injection ht with ht
        subst ht
        rw [show (thesis_transition db tid target now).2 =
          TransitionOutcome.illegalTransition by simp [thesis_transition, hft, c1]] at hs
        cases hs
      · intro _
        simp [thesis_transition, hft, c1]

theorem thesis_transition_success_spec_witness :
    (thesis_transition dbC5 1 "Submitted" "2026-01-02T00:00:00").1.status_history =
      dbC5.status_history ++ [⟨1, some "Draft", "Submitted", "2026-01-02T00:00:00"⟩] ∧
    (thesis_transition dbC5 1 "Submitted" "2026-01-02T00:00:00").1.milestones =
      dbC5.milestones ∧
    (thesis_transition dbC5 1 "Submitted" "2026-01-02T00:00:00").1.decision_log =
      dbC5.decision_log := by
  have h := (thesis_transition_success_spec dbC5 1 "Submitted" "2026-01-02T00:00:00").1
    ⟨1, "T1", none, 1, none, none, none, "Draft",
     "2026-01-01T00:00:00", "2026-01-01T00:00:00"⟩ (by decide) (by decide)
  exact ⟨h.1, h.2.2.2.1, h.2.2.2.2.2.2.2⟩

/-- C8: "Late" is never the target of a registry edge and has no outgoing
edges: for every state `s`, `"Late" ∉ THESIS_TRANSITIONS s`, a transition
request with target "Late" always fails with `illegalTransition` leaving the
state unchanged, and every transition request from a thesis whose status is
"Late" fails with `illegalTransition` — "Late" is reachable only via the
deadline override. -/
theorem late_state_isolated (db : DB) (tid : Nat) (target now : String) (t : Thesis) :
    (∀ s : String, "Late" ∉ THESIS_TRANSITIONS s) ∧
    THESIS_TRANSITIONS "Late" = [] ∧
    (findThesis db tid = some t →
      thesis_transition db tid "Late" now = (db, TransitionOutcome.illegalTransition)) ∧
    (findThesis db tid = some t → t.status = "Late" →
      thesis_transition db tid target now = (db, TransitionOutcome.illegalTransition)) := by
  refine ⟨?_, rfl, ?_, ?_⟩
  · intro s
    simpa using late_not_contains s
  · intro hf
    have hm : "Late" ∉ THESIS_TRANSITIONS t.status := by
      simpa using late_not_contains t.status
    simp [thesis_transition, hf, hm]
  · intro hf hs
    have hm : target ∉ THESIS_TRANSITIONS t.status := by
      rw [hs, show THESIS_TRANSITIONS "Late" = [] from rfl]
      exact List.not_mem_nil target
    simp [thesis_transition, hf, hm]

/-- Concrete state for the Late-isolation witness: thesis 1 is "Late". -/
def dbC8 : DB :=
  { theses := [⟨1, "T1", none, 1, none, none, some "2026-01-01", "Late",
                "2026-01-01T00:00:00", "2026-01-10T00:00:00"⟩],
    milestones := [], submissions := [],
    status_history := [⟨1, none, "Draft", "2026-01-01T00:00:00"⟩,
                       ⟨1, some "Draft", "Late", "2026-01-10T00:00:00"⟩],
    committee_member := [], thesis_committee := [], decision_log := [] }

theorem late_state_isolated_witness :
    thesis_transition dbC8 1 "Submitted" "2026-01-11T00:00:00" =
      (dbC8, TransitionOutcome.illegalTransition) ∧
    thesis_transition dbC5 1 "Late" "2026-01-11T00:00:00" =
      (dbC5, TransitionOutcome.illegalTransition) ∧
    "Late" ∉ THESIS_TRANSITIONS "Submitted" := by
  have h1 := late_state_isolated dbC8 1 "Submitted" "2026-01-11T00:00:00"
    ⟨1, "T1", none, 1, none, none, some "2026-01-01", "Late",
     "2026-01-01T00:00:00", "2026-01-10T00:00:00"⟩
  have h2 := late_state_isolated dbC5 1 "Late" "2026-01-11T00:00:00"
    ⟨1, "T1", none, 1, none, none, none, "Draft",
     "2026-01-01T00:00:00", "2026-01-01T00:00:00"⟩
  exact ⟨h1.2.2.2 (by decide) rfl, h2.2.2.1 (by decide), h1.1 "Submitted"⟩

/-- C9: a successful `milestone_transition` updates only the status of that
milestone row: the thesis table (including status and `updated_at`), the
status-history table, and every other table and every other milestone are
left unchanged — milestone transitions are never recorded in the thesis
audit trail. -/
theorem milestone_transition_frame (db : DB) (mid : Nat) (target : String) (ms : Milestone)
    (hf : findMilestone db mid = some ms)
    (hs : (milestone_transition db mid target).2 = TransitionOutcome.success) :
    (milestone_transition db mid target).1.theses = db.theses ∧
    (milestone_transition db mid target).1.status_history = db.status_history ∧
    (milestone_transition db mid target).1.submissions = db.submissions ∧
    (milestone_transition db mid target).1.committee_member = db.committee_member ∧
    (milestone_transition db mid target).1.thesis_committee = db.thesis_committee ∧
    (milestone_transition db mid target).1.decision_log = db.decision_log ∧
    (∀ m ∈ db.milestones, m.milestone_id ≠ mid →
      m ∈ (milestone_transition db mid target).1.milestones) ∧
    (∀ m ∈ db.milestones, m.milestone_id = mid →
      { m with status := target } ∈ (milestone_transition db mid target).1.milestones) := by
  by_cases c : target ∈ MILESTONE_TRANSITIONS ms.status
  · refine ⟨?_, ?_, ?_, ?_, ?_, ?_, ?_, ?_⟩
    · simp [milestone_transition, hf, c]
    · simp [milestone_transition, hf, c]
    · simp [milestone_transition, hf, c]
    · simp [milestone_transition, hf, c]
    · simp [milestone_transition, hf, c]
    · simp [milestone_transition, hf, c]
    · intro m hm hid
      have hmem : m ∈ db.milestones.map (fun v : Milestone =>
          if v.milestone_id = mid then { v with status := target } else v) :=
        List.mem_map.mpr ⟨m, hm, by simp [hid]⟩
      simpa [milestone_transition, hf, c] using hmem
    · intro m hm hid
      have hmem : { m with status := target } ∈ db.milestones.map (fun v : Milestone =>
          if v.milestone_id = mid then { v with status := target } else v) :=
        List.mem_map.mpr ⟨m, hm, by simp [hid]⟩
      simpa [milestone_transition, hf, c] using hmem
  · exfalso
    rw [show (milestone_transition db mid target).2 =
      TransitionOutcome.illegalTransition by simp [milestone_transition, hf, c]] at hs
    cases hs

/-- Concrete state for the milestone-frame witness: milestone 1 is "Planned"
and moves to "InProgress"; milestone 2 and the thesis row stay untouched. -/
def dbW9 : DB :=
  { theses := [⟨1, "T1", none, 1, none, none, none, "Draft",
                "2026-01-01T00:00:00", "2026-01-01T00:00:00"⟩],
    milestones := [⟨1, 1, "Literature Review", "2026-03-01", "Planned", none⟩,
                   ⟨2, 1, "Methodology", "2026-04-01", "InProgress", some "pipeline"⟩],
    submissions := [],
    status_history := [⟨1, none, "Draft", "2026-01-01T00:00:00"⟩],
    committee_member := [], thesis_committee := [], decision_log := [] }

theorem milestone_transition_frame_witness :
    (milestone_transition dbW9 1 "InProgress").1.theses = dbW9.theses ∧
    (milestone_transition dbW9 1 "InProgress").1.status_history = dbW9.status_history ∧
    (⟨2, 1, "Methodology", "2026-04-01", "InProgress", some "pipeline"⟩ : Milestone) ∈
      (milestone_transition dbW9 1 "InProgress").1.milestones ∧
    (⟨1, 1, "Literature Review", "2026-03-01", "InProgress", none⟩ : Milestone) ∈
      (milestone_transition dbW9 1 "InProgress").1.milestones := by
  have h := milestone_transition_frame dbW9 1 "InProgress"
    ⟨1, 1, "Literature Review", "2026-03-01", "Planned", none⟩ (by decide) (by decide)
  exact ⟨h.1, h.2.1,
    h.2.2.2.2.2.2.1 ⟨2, 1, "Methodology", "2026-04-01", "InProgress", some "pipeline"⟩
      (by decide) (by decide),
    h.2.2.2.2.2.2.2 ⟨1, 1, "Literature Review", "2026-03-01", "Planned", none⟩
      (by decide) (by decide)⟩

/-- C10: `thesis_delete` has no 404 branch: it always reports success, and
when no thesis row carries the requested id the unconditional cascade delete
removes nothing (under referential integrity, which `PRAGMA foreign_keys=ON`
guarantees), so the store is left unchanged. -/
theorem thesis_delete_no_notfound (db : DB) (tid : Nat) :
    (thesis_delete db tid).2 = TransitionOutcome.success ∧
    (findThesis db tid = none → fkConsistent db → (thesis_delete db tid).1 = db) := by
  refine ⟨rfl, ?_⟩
  intro hn hfk
  obtain ⟨h1, h2, h3, h4, h5⟩ := hfk
  have hno : ∀ t ∈ db.theses, ¬ t.thesis_id = tid := by
    intro t ht
    simpa using List.find?_eq_none.mp hn t ht
  have e1 : db.theses.filter (fun t => !(t.thesis_id == tid)) = db.theses :=
    List.filter_eq_self.mpr (fun t ht => by simpa using hno t ht)
  have e2 : db.milestones.filter (fun m => !(m.thesis_id == tid)) = db.milestones :=
    List.filter_eq_self.mpr (fun m hm => by
      obtain ⟨t, ht, hid⟩ := h1 m hm
      simpa using hid ▸ hno t ht)
  have e3 : db.submissions.filter (fun s => !(s.thesis_id == tid)) = db.submissions :=
    List.filter_eq_self.mpr (fun s hs => by
      obtain ⟨t, ht, hid⟩ := h2 s hs
      simpa using hid ▸ hno t ht)
  have e4 : db.status_history.filter (fun h => !(h.thesis_id == tid)) = db.status_history :=
    List.filter_eq_self.mpr (fun h hh => by
      obtain ⟨t, ht, hid⟩ := h3 h hh
      simpa using hid ▸ hno t ht)
  have e5 : db.thesis_committee.filter (fun a => !(a.1 == tid)) = db.thesis_committee :=
    List.filter_eq_self.mpr (fun a ha => by
      obtain ⟨t, ht, hid⟩ := h4 a ha
      simpa using hid ▸ hno t ht)
  have e6 : db.decision_log.filter (fun d => !(d.thesis_id == tid)) = db.decision_log :=
    List.filter_eq_self.mpr (fun d hd => by
      obtain ⟨t, ht, hid⟩ := h5 d hd
      simpa using hid ▸ hno t ht)
  show ({ theses := db.theses.filter (fun t => !(t.thesis_id == tid)),
          milestones := db.milestones.filter (fun m => !(m.thesis_id == tid)),
          submissions := db.submissions.filter (fun s => !(s.thesis_id == tid)),
          status_history := db.status_history.filter (fun h => !(h.thesis_id == tid)),
          committee_member := db.committee_member,
          thesis_committee := db.thesis_committee.filter (fun a => !(a.1 == tid)),
          decision_log := db.decision_log.filter (fun d => !(d.thesis_id == tid)) } : DB) = db
  rw [e1, e2, e3, e4, e5, e6]

theorem thesis_delete_no_notfound_witness :
    (thesis_delete dbW1 42).2 = TransitionOutcome.success ∧
    (thesis_delete dbW1 42).1 = dbW1 := by
  have h := thesis_delete_no_notfound dbW1 42
  exact ⟨h.1, h.2 (by decide) (by decide)⟩
